import Mathlib

/-!
Shallow embedding of the settlement-record workflow in `src/rust/src/main.rs`.

The program talks to a Bitcoin regtest node over JSON-RPC.  The embedding
models:
  * `serde_json::Value` as the inductive type `Json` (numbers as exact
    decimals);
  * Rust `panic!` (from `.unwrap()` on an `Err`/`None`) as the `PanicOr` type;
  * monetary amounts as natural numbers of satoshis, signed amounts as
    integers of satoshis;
  * the node as a function `String → Option Json` giving, for a txid, the
    verbose `getrawtransaction` result (`None` models an RPC error, which the
    source turns into `Option` via `.ok()`).
Library functions from `rust-bitcoin` that the source calls are modelled by
small executable stand-ins, documented at their definitions.
-/

/-- Model of `serde_json::Value`.  A number is modelled as the exact decimal
of its JSON literal: `num m e` denotes `m / 10 ^ e` (the claims under study
do not depend on binary floating-point rounding). -/
inductive Json where
  | null : Json
  | bool (b : Bool) : Json
  | num (m : ℤ) (e : ℕ) : Json
  | str (s : String) : Json
  | arr (xs : List Json) : Json
  | obj (fields : List (String × Json)) : Json

/-- Indexing `v["key"]` on a `serde_json::Value`: field lookup on objects, `Null` on
everything else (and on a missing key). -/
def Json.index (j : Json) (key : String) : Json :=
  match j with
  | .obj fields => ((fields.find? (fun f => f.1 = key)).map (fun f => f.2)).getD .null
  | _ => .null

/-- Model of `Value::as_str`. -/
def Json.as_str : Json → Option String
  | .str s => some s
  | _ => none

/-- Model of `Value::as_f64`: any JSON number is representable; the result is the
decimal `(mantissa, exponent)` pair denoting `m / 10 ^ e`. -/
def Json.as_f64 : Json → Option (ℤ × ℕ)
  | .num m e => some (m, e)
  | _ => none

/-- Model of `Value::as_u64`: succeeds exactly on numbers stored as unsigned 64-bit
integers, i.e. non-negative integer literals (no decimal point) that fit in
64 bits. -/
def Json.as_u64 : Json → Option ℕ
  | .num m 0 => if 0 ≤ m ∧ m < 2 ^ 64 then some m.toNat else none
  | _ => none

/-- Model of `Value::as_array`. -/
def Json.as_array : Json → Option (List Json)
  | .arr xs => some xs
  | _ => none

/-- Result of a Rust computation that may `panic!` (e.g. `.unwrap()` on an
`Err`): `.panic` aborts the whole program, `.ret a` returns normally. -/
inductive PanicOr (α : Type) where
  | panic : PanicOr α
  | ret (a : α) : PanicOr α
deriving DecidableEq

def PanicOr.map {α β : Type} (f : α → β) : PanicOr α → PanicOr β
  | .panic => .panic
  | .ret a => .ret (f a)

/-- Whether the first list of characters begins with the second. -/
def charsStartWith : List Char → List Char → Bool
  | _, [] => true
  | [], _ :: _ => false
  | c :: cs, d :: ds => c == d && charsStartWith cs ds

/-- Whether the string `s` begins with the string `p`. -/
def strStartsWith (s p : String) : Bool :=
  charsStartWith s.data p.data

/-- Modelled from the library (`rust-bitcoin`): `Address::from_str` parses an
address string into an `Address<NetworkUnchecked>`, failing (`Err`) on
malformed strings.  The stand-in recognises a string as a well-formed address
iff it carries one of the bech32 human-readable prefixes; the parsed value is
the string itself. -/
def Address.from_str (s : String) : Option String :=
  if strStartsWith s "bcrt1" ∨ strStartsWith s "bc1" ∨ strStartsWith s "tb1" then some s
  else none

/-- Modelled from the library (`rust-bitcoin`): `require_network(Network::Regtest)`
accepts a parsed address only if it is valid on regtest; the stand-in keys
this on the regtest bech32 prefix. -/
def require_network (addr : String) : Option String :=
  if strStartsWith addr "bcrt1" then some addr else none

/-- Modelled from the library (`rust-bitcoin`): `Amount::from_btc` converts a
BTC value (here an exact decimal `m / 10 ^ e`) to satoshis, failing on
negative values, on more than 8 decimal places (the value is not a whole
number of satoshis), and on values that overflow `u64`. -/
def Amount.from_btc (d : ℤ × ℕ) : Option ℕ :=
  if d.1 < 0 then none
  else
    let n := d.1.toNat
    if d.2 ≤ 8 then
      let sats := n * 10 ^ (8 - d.2)
      if sats < 2 ^ 64 then some sats else none
    else
      let scale := 10 ^ (d.2 - 8)
      if n % scale = 0 ∧ n / scale < 2 ^ 64 then some (n / scale) else none

/-- The `parse_addr_amount` closure (main.rs lines 136–143):

```text
let addr = Address::from_str(vout["scriptPubKey"]["address"].as_str()?)
    .unwrap()
    .require_network(Network::Regtest)
    .ok();
let amount = Amount::from_btc(vout["value"].as_f64()?).ok()?;
Some((addr, amount))
```

`.ret none` models the closure returning `None` (the `?` operators),
`.ret (some _)` models `Some((addr, amount))`, and `.panic` models the
`.unwrap()` panicking when `Address::from_str` returns `Err`. -/
def parse_addr_amount (vout : Json) : PanicOr (Option (Option String × ℕ)) :=
  match ((vout.index "scriptPubKey").index "address").as_str with
  | none => .ret none
  | some s =>
    match Address.from_str s with
    | none => .panic
    | some unchecked =>
      let addr := require_network unchecked
      match (vout.index "value").as_f64 with
      | none => .ret none
      | some q =>
        match Amount.from_btc q with
        | none => .ret none
        | some amount => .ret (some (addr, amount))

/-- Rust `Iterator::filter_map` over a list, with the mapped closure allowed to
panic: the elements are processed left to right and the first panic aborts
the whole computation. -/
def filterMapPanic {α : Type} (f : Json → PanicOr (Option α)) : List Json → PanicOr (List α)
  | [] => .ret []
  | x :: xs =>
    match f x with
    | .panic => .panic
    | .ret none => filterMapPanic f xs
    | .ret (some a) => (filterMapPanic f xs).map (fun ys => a :: ys)

/-- One step of the vout fold (main.rs lines 177–186).  The accumulator is
`(trader_amt, change_addr, change_amt)`; an output whose decoded address
equals the trader address overwrites the trader amount, any other output
overwrites the change address and amount. -/
def voutFoldStep (trader_address : String) (acc : ℕ × Option String × ℕ)
    (p : Option String × ℕ) : ℕ × Option String × ℕ :=
  if p.1 = some trader_address then (p.2, acc.2.1, acc.2.2)
  else (acc.1, p.1, p.2)

/-- The vout classification (main.rs lines 171–186):

```text
tx_raw["vout"].as_array().unwrap_or(&vec![]).iter().cloned()
    .filter_map(parse_addr_amount)
    .fold((Amount::from_sat(0), None, Amount::from_sat(0)), ...)
```
-/
def classify_outputs (trader_address : String) (tx_raw : Json) :
    PanicOr (ℕ × Option String × ℕ) :=
  let vouts := ((tx_raw.index "vout").as_array).getD []
  (filterMapPanic parse_addr_amount vouts).map
    (fun ps => ps.foldl (voutFoldStep trader_address) (0, none, 0))

/-- A verbose raw transaction with the given `vin` and `vout` arrays. -/
def mkRawTx (vins vouts : List Json) : Json :=
  .obj [("vin", .arr vins), ("vout", .arr vouts)]

/-- The diagnostic printed by the `unwrap_or_else` default branch
(main.rs line 165). -/
def warningMsg : String :=
  "Warning: Failed to parse input address/amount using default values"

/-- Body of the closure applied to the first vin entry (main.rs lines
150–163), before `unwrap_or_else` is applied.  The second component collects
the lines printed on stdout along the way (the `Fetching previous
transaction: …` diagnostic).  `fetchTx` models `getrawtransaction` through
the RPC client: `none` is an RPC error (turned into `Option` by `.ok()` in
the source). -/
def resolve_vin (fetchTx : String → Option Json) (vin : Json) :
    PanicOr (Option (Option String × ℕ) × List String) :=
  match (vin.index "txid").as_str with
  | none => .ret (none, [])
  | some prev_txid =>
    let log := ["Fetching previous transaction: " ++ prev_txid]
    match fetchTx prev_txid with
    | none => .ret (none, log)
    | some prev_tx =>
      match (prev_tx.index "vout").as_array with
      | none => .ret (none, log)
      | some vouts =>
        match (vin.index "vout").as_u64 with
        | none => .ret (none, log)
        | some i =>
          match vouts.get? i with
          | none => .ret (none, log)
          | some pv =>
            match parse_addr_amount pv with
            | .panic => .panic
            | .ret r => .ret (r, log)

/-- The chain `tx_raw["vin"].as_array().and_then(|vins| vins.get(0)).and_then(…)`:
the first vin entry, if any, is handed to `resolve_vin`. -/
def resolve_input_core (fetchTx : String → Option Json) (tx_raw : Json) :
    PanicOr (Option (Option String × ℕ) × List String) :=
  match (tx_raw.index "vin").as_array with
  | none => .ret (none, [])
  | some vins =>
    match vins.head? with
    | none => .ret (none, [])
    | some vin => resolve_vin fetchTx vin

/-- First-vin resolution with the `unwrap_or_else` default (main.rs lines
147–167): on any `None` from the chain the result degrades to
`(None, Amount::from_sat(0))` and the warning diagnostic is printed. -/
def resolve_input (fetchTx : String → Option Json) (tx_raw : Json) :
    PanicOr ((Option String × ℕ) × List String) :=
  match resolve_input_core fetchTx tx_raw with
  | .panic => .panic
  | .ret (none, log) => .ret ((none, 0), log ++ [warningMsg])
  | .ret (some p, log) => .ret (p, log)

/-- The confirmation sub-object of `get_transaction`
(`tx_details.info` in the source): model of
`bitcoincore_rpc::json::WalletTxInfo`, restricted to the fields read. -/
structure WalletTxInfo where
  blockheight : Option ℕ
  blockhash : Option String

/-- Model of the `get_transaction` result (`tx_details` in the source),
restricted to the fields read.  `fee` is a signed amount in satoshis. -/
structure GetTransactionResult where
  fee : Option ℤ
  info : WalletTxInfo

/-- Fee extraction (main.rs line 119):
`tx_details.fee.unwrap_or(SignedAmount::from_sat(0)).abs()`. -/
def extract_fee (tx_details : GetTransactionResult) : ℤ :=
  |tx_details.fee.getD 0|

/-- Confirmation-metadata extraction (main.rs lines 120–121):
`blockheight.unwrap_or(0)` then `blockhash.unwrap()` — the latter panics
when the hash is absent. -/
def extract_confirmation (tx_details : GetTransactionResult) : PanicOr (ℕ × String) :=
  let block_height := tx_details.info.blockheight.getD 0
  match tx_details.info.blockhash with
  | none => .panic
  | some block_hash => .ret (block_height, block_hash)

/-- Strip trailing `'0'` characters (used for the fractional part of a BTC
amount, matching how `f64`'s `Display` prints `to_btc()` values exactly
representable at satoshi precision). -/
def trimTrailingZeros (s : String) : String :=
  String.mk ((s.data.reverse.dropWhile (fun c => c = '0')).reverse)

/-- Modelled from the library: the text produced by `Display` for
`Amount::to_btc()` (an `f64`), for a non-negative amount in satoshis —
the exact decimal with trailing zeros trimmed, and no decimal point for
whole-BTC values. -/
def btcDisplay (sats : ℕ) : String :=
  let whole := sats / 100000000
  let frac := sats % 100000000
  if frac = 0 then toString whole
  else toString whole ++ "." ++ trimTrailingZeros (String.mk ((Nat.toDigits 10 (frac + 100000000)).tail))

/-- Modelled from the library: the text produced by `Display` for
`SignedAmount::to_btc()`, for a signed amount in satoshis. -/
def signedBtcDisplay (sats : ℤ) : String :=
  (if sats < 0 then "-" else "") ++ btcDisplay sats.natAbs

/-- One `writeln!` call: appends one newline-terminated chunk to the
file, modelled as the list of chunks written so far. -/
def writeln (file : List String) (s : String) : List String :=
  file ++ [s ++ "\n"]

/-- The record-writing sequence (main.rs lines 198–216): ten `writeln!`
calls on a freshly created file. -/
def write_record (send_tx : String) (input_address : Option String) (input_amount : ℕ)
    (trader_address : String) (trader_output_amount : ℕ) (change_address : Option String)
    (change_amount : ℕ) (fee : ℤ) (block_height : ℕ) (block_hash : String) : List String :=
  let file : List String := []
  let file := writeln file send_tx
  let file := writeln file (input_address.getD "")
  let file := writeln file (btcDisplay input_amount)
  let file := writeln file trader_address
  let file := writeln file (btcDisplay trader_output_amount)
  let file := writeln file (change_address.getD "")
  let file := writeln file (btcDisplay change_amount)
  let file := writeln file (signedBtcDisplay fee)
  let file := writeln file (toString block_height)
  let file := writeln file block_hash
  file

/-- The ten record lines in the fixed order stated by the specification
(§6): transaction id; input address; input amount; counterparty address;
counterparty amount; change address (may be empty); change amount; fee;
confirming block height; confirming block hash.  Refinement target for
`write_record`. -/
def spec_record_lines (send_tx : String) (input_address : Option String) (input_amount : ℕ)
    (trader_address : String) (trader_output_amount : ℕ) (change_address : Option String)
    (change_amount : ℕ) (fee : ℤ) (block_height : ℕ) (block_hash : String) : List String :=
  [send_tx,
   input_address.getD "",
   btcDisplay input_amount,
   trader_address,
   btcDisplay trader_output_amount,
   change_address.getD "",
   btcDisplay change_amount,
   signedBtcDisplay fee,
   toString block_height,
   block_hash]

/-- A node-side wallet action of the provisioning loop. -/
inductive WalletAction where
  | create (name : String) : WalletAction
  | load (name : String) : WalletAction
  | noop (name : String) : WalletAction
deriving DecidableEq

/-- One iteration of the wallet-provisioning loop (main.rs lines 54–64):

```text
if !existing_wallets.contains(&wallet_name.to_string()) { create_wallet(...) }
else if !loaded_wallets.contains(&wallet_name.to_string()) { load_wallet(...) }
else { println!("{} Wallet already loaded", wallet_name) }
```

`existing_wallets` is `list_wallet_dir()` (the on-disk set) and
`loaded_wallets` is `list_wallets()` (the loaded set). -/
def ensure_wallet (existing_wallets loaded_wallets : List String)
    (wallet_name : String) : WalletAction :=
  if wallet_name ∉ existing_wallets then .create wallet_name
  else if wallet_name ∉ loaded_wallets then .load wallet_name
  else .noop wallet_name

/-- Node-side effect of a wallet action on the (on-disk, loaded) wallet
sets: `create_wallet` creates the wallet on disk and also loads it,
`load_wallet` only loads, the no-op branch changes nothing. -/
def applyAction (st : List String × List String) (a : WalletAction) :
    List String × List String :=
  match a with
  | .create n => (st.1 ++ [n], st.2 ++ [n])
  | .load n => (st.1, st.2 ++ [n])
  | .noop _ => st

/-- Whether an action mutates node-side state (issues a `create_wallet` or
`load_wallet` RPC call). -/
def isMutation : WalletAction → Bool
  | .noop _ => false
  | _ => true

/-- The whole provisioning loop over `target_wallets = ["Miner", "Trader"]`
(main.rs lines 53–64), with the two observed sets fixed before the loop. -/
def provision_wallets (existing_wallets loaded_wallets : List String) : List WalletAction :=
  ["Miner", "Trader"].map (ensure_wallet existing_wallets loaded_wallets)

/-- Sample previous output: owner `bcrt1qminerowner`, 50 BTC. -/
def sampleVout : Json :=
  .obj [("scriptPubKey", .obj [("address", .str "bcrt1qminerowner")]), ("value", .num 50 0)]

/-- Sample previous transaction holding `sampleVout` at index 0. -/
def samplePrevTx : Json := .obj [("vout", .arr [sampleVout])]

/-- Sample vin entry referencing output 0 of transaction `aa11`. -/
def sampleVin : Json := .obj [("txid", .str "aa11"), ("vout", .num 0 0)]

/-- Sample node: knows only the transaction `aa11`. -/
def sampleFetch : String → Option Json :=
  fun t => if t = "aa11" then some samplePrevTx else none

/-- Sample node that fails every fetch (RPC error on any txid). -/
def failingFetch : String → Option Json := fun _ => none

/-- Sample output paying 20 BTC to the trader address `bcrt1qtrader`. -/
def traderVout : Json :=
  .obj [("scriptPubKey", .obj [("address", .str "bcrt1qtrader")]), ("value", .num 20 0)]

/-- Sample change output: 29.999 BTC back to `bcrt1qchange`. -/
def changeVout : Json :=
  .obj [("scriptPubKey", .obj [("address", .str "bcrt1qchange")]), ("value", .num 29999 3)]

/-- A second non-counterparty output: 1.5 BTC to `bcrt1qother`. -/
def otherVout : Json :=
  .obj [("scriptPubKey", .obj [("address", .str "bcrt1qother")]), ("value", .num 15 1)]

/-- A second counterparty output: 5 BTC to `bcrt1qtrader`. -/
def traderVout2 : Json :=
  .obj [("scriptPubKey", .obj [("address", .str "bcrt1qtrader")]), ("value", .num 5 0)]

/-- An output whose `scriptPubKey.address` is present but malformed (not an
address in any network). -/
def malformedVout : Json :=
  .obj [("scriptPubKey", .obj [("address", .str "garbage")]), ("value", .num 1 0)]

/-- Sample `get_transaction` result: confirmed (hash present) but with no
`blockheight` reported, fee −0.00015 BTC (−15000 sat). -/
def txdMissingHeight : GetTransactionResult :=
  { fee := some (-15000), info := { blockheight := none, blockhash := some "d0d0" } }

/-- Sample `get_transaction` result with no optional field reported. -/
def txdEmpty : GetTransactionResult :=
  { fee := none, info := { blockheight := none, blockhash := none } }

/-- Sample fully reported `get_transaction` result. -/
def txdFull : GetTransactionResult :=
  { fee := some (-15000), info := { blockheight := some 102, blockhash := some "d0d0" } }

/-- Taking `getD` after `getLast?` of a cons: the head becomes the new default. -/
theorem getLast?_getD_cons {α : Type} (p x : α) (l : List α) :
    ((p :: l).getLast?).getD x = (l.getLast?).getD p := by
  cases l with
  | nil => rfl
  | cons q t =>
    rw [List.getLast?_cons_cons]
    cases h : (q :: t).getLast? with
    | none => simp at h
    | some z => rfl

/-- As `getLast?_getD_cons`, with a map applied to the optional last element. -/
theorem getLast?_map_getD_cons {α β : Type} (g : α → β) (p : α) (x : β) (l : List α) :
    (((p :: l).getLast?).map g).getD x = ((l.getLast?).map g).getD (g p) := by
  cases l with
  | nil => rfl
  | cons q t =>
    rw [List.getLast?_cons_cons]
    cases h : (q :: t).getLast? with
    | none => simp at h
    | some z => rfl

/-- After the vout fold, the change components hold the last folded pair
whose address is not the trader address — or the accumulator's change
components when every pair matches the trader. -/
theorem foldl_voutFoldStep_change (trader : String) (ps : List (Option String × ℕ)) :
    ∀ acc : ℕ × Option String × ℕ,
      (ps.foldl (voutFoldStep trader) acc).2 =
        ((ps.filter (fun p => p.1 ≠ some trader)).getLast?).getD acc.2 := by
  induction ps with
  | nil => intro acc; rfl
  | cons p rest ih =>
    intro acc
    rw [List.foldl_cons, ih]
    by_cases hp : p.1 = some trader
    · have hstep : (voutFoldStep trader acc p).2 = acc.2 := by
        simp [voutFoldStep, hp]
      have hfilter : (p :: rest).filter (fun p => p.1 ≠ some trader) =
          rest.filter (fun p => p.1 ≠ some trader) := by
        simp [List.filter_cons, hp]
      rw [hstep, hfilter]
    · have hstep : (voutFoldStep trader acc p).2 = p := by
        simp [voutFoldStep, hp]
      have hfilter : (p :: rest).filter (fun p => p.1 ≠ some trader) =
          p :: rest.filter (fun p => p.1 ≠ some trader) := by
        simp [List.filter_cons, hp]
      rw [hstep, hfilter, getLast?_getD_cons]

/-- After the vout fold, the trader amount is the amount of the last folded
pair whose address equals the trader address — or the accumulator's trader
amount when no pair matches. -/
theorem foldl_voutFoldStep_trader (trader : String) (ps : List (Option String × ℕ)) :
    ∀ acc : ℕ × Option String × ℕ,
      (ps.foldl (voutFoldStep trader) acc).1 =
        (((ps.filter (fun p => p.1 = some trader)).getLast?).map Prod.snd).getD acc.1 := by
  induction ps with
  | nil => intro acc; rfl
  | cons p rest ih =>
    intro acc
    rw [List.foldl_cons, ih]
    by_cases hp : p.1 = some trader
    · have hstep : (voutFoldStep trader acc p).1 = p.2 := by
        simp [voutFoldStep, hp]
      have hfilter : (p :: rest).filter (fun p => p.1 = some trader) =
          p :: rest.filter (fun p => p.1 = some trader) := by
        simp [List.filter_cons, hp]
      rw [hstep, hfilter, getLast?_map_getD_cons]
    · have hstep : (voutFoldStep trader acc p).1 = acc.1 := by
        simp [voutFoldStep, hp]
      have hfilter : (p :: rest).filter (fun p => p.1 = some trader) =
          rest.filter (fun p => p.1 = some trader) := by
        simp [List.filter_cons, hp]
      rw [hstep, hfilter]

/-- Claim C1: the reconstruction resolves only the first vin entry — any raw
transaction whose vin array has the same first element resolves identically —
and when that entry's referenced previous transaction is fetched, its
referenced output index is in range and the output decodes, the recorded
input address and input amount are exactly the decoded address and amount of
that previous output. -/
theorem resolve_input_first_vin (fetchTx : String → Option Json)
    (tx vin prev_tx pv : Json) (vins prev_vouts : List Json) (prev_txid : String)
    (i : ℕ) (addr : Option String) (amt : ℕ)
    (h1 : (tx.index "vin").as_array = some vins)
    (h2 : vins.head? = some vin)
    (h3 : (vin.index "txid").as_str = some prev_txid)
    (h4 : fetchTx prev_txid = some prev_tx)
    (h5 : (prev_tx.index "vout").as_array = some prev_vouts)
    (h6 : (vin.index "vout").as_u64 = some i)
    (h7 : prev_vouts.get? i = some pv)
    (h8 : parse_addr_amount pv = .ret (some (addr, amt))) :
    resolve_input fetchTx tx =
      .ret ((addr, amt), ["Fetching previous transaction: " ++ prev_txid]) ∧
    ∀ vins2 vouts2, vins2.head? = some vin →
      resolve_input fetchTx (mkRawTx vins2 vouts2) = resolve_input fetchTx tx := by
  have hvin : resolve_vin fetchTx vin =
      .ret (some (addr, amt), ["Fetching previous transaction: " ++ prev_txid]) := by
    simp only [resolve_vin, h3, h4, h5, h6, h7, h8]
  have hcore : resolve_input_core fetchTx tx =
      .ret (some (addr, amt), ["Fetching previous transaction: " ++ prev_txid]) := by
    simp only [resolve_input_core, h1, h2, hvin]
  constructor
  · simp only [resolve_input, hcore]
  · intro vins2 vouts2 hh
    have harr : ((mkRawTx vins2 vouts2).index "vin").as_array = some vins2 := rfl
    have hcore2 : resolve_input_core fetchTx (mkRawTx vins2 vouts2) =
        .ret (some (addr, amt), ["Fetching previous transaction: " ++ prev_txid]) := by
      simp only [resolve_input_core, harr, hh, hvin]
    simp only [resolve_input, hcore2, hcore]

theorem resolve_input_first_vin_witness :
    resolve_input sampleFetch (mkRawTx [sampleVin] []) =
      .ret ((some "bcrt1qminerowner", 5000000000),
        ["Fetching previous transaction: " ++ "aa11"]) :=
  (resolve_input_first_vin sampleFetch (mkRawTx [sampleVin] []) sampleVin samplePrevTx
    sampleVout [sampleVin] [sampleVout] "aa11" 0 (some "bcrt1qminerowner") 5000000000
    rfl rfl rfl rfl rfl (by decide) rfl (by decide)).1

/-- Claim C2: when the first vin's referenced previous transaction cannot be
fetched, or its referenced output index is out of range of the previous
transaction's vout array, the resolution records an absent input address and
a zero input amount, prints the warning diagnostic, and returns normally
rather than aborting. -/
theorem resolve_input_soft_failure (fetchTx : String → Option Json)
    (tx vin : Json) (vins : List Json) (prev_txid : String)
    (h1 : (tx.index "vin").as_array = some vins)
    (h2 : vins.head? = some vin)
    (h3 : (vin.index "txid").as_str = some prev_txid)
    (hfail : fetchTx prev_txid = none ∨
      ∃ prev_tx prev_vouts i, fetchTx prev_txid = some prev_tx ∧
        (prev_tx.index "vout").as_array = some prev_vouts ∧
        (vin.index "vout").as_u64 = some i ∧ prev_vouts.get? i = none) :
    resolve_input fetchTx tx =
      .ret ((none, 0), ["Fetching previous transaction: " ++ prev_txid, warningMsg]) := by
  have hvin : resolve_vin fetchTx vin =
      .ret (none, ["Fetching previous transaction: " ++ prev_txid]) := by
    rcases hfail with h4 | ⟨prev_tx, prev_vouts, i, h4, h5, h6, h7⟩
    · simp only [resolve_vin, h3, h4]
    · simp only [resolve_vin, h3, h4, h5, h6, h7]
  have hcore : resolve_input_core fetchTx tx =
      .ret (none, ["Fetching previous transaction: " ++ prev_txid]) := by
    simp only [resolve_input_core, h1, h2, hvin]
  simp only [resolve_input, hcore]
  rfl

theorem resolve_input_soft_failure_witness :
    resolve_input failingFetch (mkRawTx [sampleVin] []) =
      .ret ((none, 0), ["Fetching previous transaction: " ++ "aa11", warningMsg]) :=
  resolve_input_soft_failure failingFetch (mkRawTx [sampleVin] []) sampleVin [sampleVin]
    "aa11" rfl rfl rfl (Or.inl rfl)

/-- Claim C3: for a two-output transaction in which exactly one output's
decoded address equals the counterparty (trader) address and the other
output decodes to a different address, the reported payment amount is the
matching output's amount and the reported change address and amount are the
other output's address and amount — for both orderings of the two outputs
in vout. -/
theorem classify_two_outputs (trader other : String) (txA txB v1 v2 : Json)
    (m1 m2 : ℕ) (hne : other ≠ trader)
    (hp1 : parse_addr_amount v1 = .ret (some (some trader, m1)))
    (hp2 : parse_addr_amount v2 = .ret (some (some other, m2)))
    (hA : (txA.index "vout").as_array = some [v1, v2])
    (hB : (txB.index "vout").as_array = some [v2, v1]) :
    classify_outputs trader txA = .ret (m1, some other, m2) ∧
    classify_outputs trader txB = .ret (m1, some other, m2) := by
  have hfA : filterMapPanic parse_addr_amount [v1, v2] =
      .ret [(some trader, m1), (some other, m2)] := by
    simp only [filterMapPanic, hp1, hp2, PanicOr.map]
  have hfB : filterMapPanic parse_addr_amount [v2, v1] =
      .ret [(some other, m2), (some trader, m1)] := by
    simp only [filterMapPanic, hp2, hp1, PanicOr.map]
  constructor
  · simp only [classify_outputs, hA, Option.getD_some, hfA, PanicOr.map,
      List.foldl_cons, List.foldl_nil]
    simp [voutFoldStep, hne]
  · simp only [classify_outputs, hB, Option.getD_some, hfB, PanicOr.map,
      List.foldl_cons, List.foldl_nil]
    simp [voutFoldStep, hne]

theorem classify_two_outputs_witness :
    classify_outputs "bcrt1qtrader" (mkRawTx [] [traderVout, changeVout]) =
      .ret (2000000000, some "bcrt1qchange", 2999900000) ∧
    classify_outputs "bcrt1qtrader" (mkRawTx [] [changeVout, traderVout]) =
      .ret (2000000000, some "bcrt1qchange", 2999900000) :=
  classify_two_outputs "bcrt1qtrader" "bcrt1qchange"
    (mkRawTx [] [traderVout, changeVout]) (mkRawTx [] [changeVout, traderVout])
    traderVout changeVout 2000000000 2999900000
    (by decide) (by decide) (by decide) rfl rfl

/-- Claim C4: when the decoded outputs contain more than one whose address
differs from the counterparty (trader) address, the reported change address
and change amount are those of the last such output in vout order; the
earlier non-counterparty outputs are discarded. -/
theorem classify_change_last_wins (trader : String) (tx : Json) (vouts : List Json)
    (ps : List (Option String × ℕ)) (lastNC : Option String × ℕ)
    (h1 : (tx.index "vout").as_array = some vouts)
    (h2 : filterMapPanic parse_addr_amount vouts = .ret ps)
    (h3 : (ps.filter (fun p => p.1 ≠ some trader)).getLast? = some lastNC)
    (h4 : 2 ≤ (ps.filter (fun p => p.1 ≠ some trader)).length) :
    ∃ payment_amount,
      classify_outputs trader tx = .ret (payment_amount, lastNC.1, lastNC.2) := by
  refine ⟨(ps.foldl (voutFoldStep trader) (0, none, 0)).1, ?_⟩
  have hch : (ps.foldl (voutFoldStep trader) (0, none, 0)).2 = lastNC := by
    rw [foldl_voutFoldStep_change trader ps (0, none, 0), h3]
    rfl
  simp only [classify_outputs, h1, Option.getD_some, h2, PanicOr.map]
  rw [← hch]

theorem classify_change_last_wins_witness :
    ∃ payment_amount,
      classify_outputs "bcrt1qtrader" (mkRawTx [] [changeVout, otherVout, traderVout]) =
        .ret (payment_amount, some "bcrt1qother", 150000000) :=
  classify_change_last_wins "bcrt1qtrader"
    (mkRawTx [] [changeVout, otherVout, traderVout])
    [changeVout, otherVout, traderVout]
    [(some "bcrt1qchange", 2999900000), (some "bcrt1qother", 150000000),
      (some "bcrt1qtrader", 2000000000)]
    (some "bcrt1qother", 150000000) rfl (by decide) (by decide) (by decide)

/-- Claim C10: when two or more decoded outputs have an address equal to the
counterparty (trader) address, the reported payment amount is the amount of
the last such matching output in vout order — the fold's last-wins rule also
applies on the counterparty side, so earlier matching amounts are discarded
rather than summed. -/
theorem classify_trader_last_wins (trader : String) (tx : Json) (vouts : List Json)
    (ps : List (Option String × ℕ)) (lastM : Option String × ℕ)
    (h1 : (tx.index "vout").as_array = some vouts)
    (h2 : filterMapPanic parse_addr_amount vouts = .ret ps)
    (h3 : (ps.filter (fun p => p.1 = some trader)).getLast? = some lastM)
    (h4 : 2 ≤ (ps.filter (fun p => p.1 = some trader)).length) :
    ∃ ch : Option String × ℕ, classify_outputs trader tx = .ret (lastM.2, ch.1, ch.2) := by
  refine ⟨(ps.foldl (voutFoldStep trader) (0, none, 0)).2, ?_⟩
  have htr : (ps.foldl (voutFoldStep trader) (0, none, 0)).1 = lastM.2 := by
    rw [foldl_voutFoldStep_trader trader ps (0, none, 0), h3]
    rfl
  simp only [classify_outputs, h1, Option.getD_some, h2, PanicOr.map]
  rw [← htr]

theorem classify_trader_last_wins_witness :
    ∃ ch : Option String × ℕ,
      classify_outputs "bcrt1qtrader" (mkRawTx [] [traderVout, changeVout, traderVout2]) =
        .ret (500000000, ch.1, ch.2) :=
  classify_trader_last_wins "bcrt1qtrader"
    (mkRawTx [] [traderVout, changeVout, traderVout2])
    [traderVout, changeVout, traderVout2]
    [(some "bcrt1qtrader", 2000000000), (some "bcrt1qchange", 2999900000),
      (some "bcrt1qtrader", 500000000)]
    (some "bcrt1qtrader", 500000000) rfl (by decide) (by decide) (by decide)

/-- Claim C5 is contradicted by the code: on a vout entry whose
`scriptPubKey.address` field is present but malformed, the `.unwrap()` in
`parse_addr_amount` panics — aborting the whole program instead of skipping
the output — and the panic propagates through the vout classification. -/
theorem parse_addr_amount_panics_on_malformed :
    parse_addr_amount malformedVout = .panic ∧
    classify_outputs "bcrt1qtrader" (mkRawTx [] [malformedVout]) = .panic := by
  constructor <;> decide

/-- Claim C6: the recorded fee is the absolute value of the node-reported
fee (a reported −0.00015 BTC, i.e. −15000 sat, is stored as 15000 sat), and
when no fee is reported the recorded fee is zero; `extract_fee` reads no
other field of the transaction, so the fee is never recomputed from input
and output sums. -/
theorem extract_fee_spec (tx_details : GetTransactionResult) (f : ℤ) :
    (tx_details.fee = some f → extract_fee tx_details = |f|) ∧
    (tx_details.fee = none → extract_fee tx_details = 0) := by
  constructor <;> intro h <;> simp [extract_fee, h]

theorem extract_fee_spec_witness :
    extract_fee txdFull = 15000 := by
  have h := (extract_fee_spec txdFull (-15000)).1 rfl
  rw [h]
  norm_num

/-- Claim C7 is refuted at a concrete input: with `blockheight` absent but
`blockhash` present, the confirmation-metadata extraction does not abort —
it substitutes the value 0 for the height and continues. -/
theorem extract_confirmation_missing_height_not_fatal :
    txdMissingHeight.info.blockheight = none ∧
    extract_confirmation txdMissingHeight ≠ .panic ∧
    extract_confirmation txdMissingHeight = .ret (0, "d0d0") := by
  refine ⟨rfl, ?_, rfl⟩
  decide

/-- Claim C7 (amended): only the absence of the block hash is treated as a
fatal precondition violation (the `unwrap` panics); an absent block height
is not fatal — the program substitutes 0 for it and continues. -/
theorem extract_confirmation_spec (tx_details : GetTransactionResult) :
    (tx_details.info.blockhash = none → extract_confirmation tx_details = .panic) ∧
    (∀ h, tx_details.info.blockhash = some h →
      extract_confirmation tx_details = .ret (tx_details.info.blockheight.getD 0, h)) := by
  constructor
  · intro h; simp [extract_confirmation, h]
  · intro hsh h; simp [extract_confirmation, h]

theorem extract_confirmation_spec_witness :
    extract_confirmation txdEmpty = .panic :=
  (extract_confirmation_spec txdEmpty).1 rfl

/-- Claim C8: for every successful run, the written settlement record is
exactly the ten newline-terminated lines of the fixed order stated by the
spec — transaction id, input address, input amount, counterparty address,
counterparty amount, change address (possibly empty), change amount,
absolute fee, confirming block height, confirming block hash — with no
header and no delimiter other than the terminating newline of each line. -/
theorem write_record_ten_lines (send_tx : String) (input_address : Option String)
    (input_amount : ℕ) (trader_address : String) (trader_output_amount : ℕ)
    (change_address : Option String) (change_amount : ℕ) (fee : ℤ)
    (block_height : ℕ) (block_hash : String) :
    write_record send_tx input_address input_amount trader_address trader_output_amount
        change_address change_amount fee block_height block_hash =
      (spec_record_lines send_tx input_address input_amount trader_address
          trader_output_amount change_address change_amount fee block_height
          block_hash).map (fun l => l ++ "\n") ∧
    (spec_record_lines send_tx input_address input_amount trader_address
      trader_output_amount change_address change_amount fee block_height
      block_hash).length = 10 :=
  ⟨rfl, rfl⟩

/-- Claim C9: the provisioning policy is evaluated create → load → no-op
with first match winning; for a wallet name present both on disk and in the
loaded set the chosen action is the no-op, which issues no node-side
mutation and leaves the node's wallet state unchanged — hence running
`ensure_wallet` a second time for an already-loaded wallet is again a
no-op. -/
theorem ensure_wallet_policy (existing_wallets loaded_wallets : List String)
    (name : String) :
    (name ∉ existing_wallets →
      ensure_wallet existing_wallets loaded_wallets name = .create name) ∧
    (name ∈ existing_wallets → name ∉ loaded_wallets →
      ensure_wallet existing_wallets loaded_wallets name = .load name) ∧
    (name ∈ existing_wallets → name ∈ loaded_wallets →
      ensure_wallet existing_wallets loaded_wallets name = .noop name ∧
      isMutation (ensure_wallet existing_wallets loaded_wallets name) = false ∧
      applyAction (existing_wallets, loaded_wallets)
          (ensure_wallet existing_wallets loaded_wallets name) =
        (existing_wallets, loaded_wallets) ∧
      ensure_wallet
          (applyAction (existing_wallets, loaded_wallets)
            (ensure_wallet existing_wallets loaded_wallets name)).1
          (applyAction (existing_wallets, loaded_wallets)
            (ensure_wallet existing_wallets loaded_wallets name)).2 name =
        .noop name) := by
  refine ⟨?_, ?_, ?_⟩
  · intro h
    simp [ensure_wallet, h]
  · intro h1 h2
    simp [ensure_wallet, h1, h2]
  · intro h1 h2
    have hw : ensure_wallet existing_wallets loaded_wallets name = .noop name := by
      simp [ensure_wallet, h1, h2]
    refine ⟨hw, ?_, ?_, ?_⟩
    · rw [hw]; rfl
    · rw [hw]; rfl
    · rw [hw]; exact hw

theorem ensure_wallet_policy_witness :
    ensure_wallet ["Miner"] ["Miner"] "Miner" = .noop "Miner" ∧
    isMutation (ensure_wallet ["Miner"] ["Miner"] "Miner") = false ∧
    applyAction (["Miner"], ["Miner"]) (ensure_wallet ["Miner"] ["Miner"] "Miner") =
      (["Miner"], ["Miner"]) ∧
    ensure_wallet
        (applyAction (["Miner"], ["Miner"]) (ensure_wallet ["Miner"] ["Miner"] "Miner")).1
        (applyAction (["Miner"], ["Miner"]) (ensure_wallet ["Miner"] ["Miner"] "Miner")).2
        "Miner" = .noop "Miner" :=
  (ensure_wallet_policy ["Miner"] ["Miner"] "Miner").2.2 (by decide) (by decide)
